import Mathlib

/-!
Shallow embedding of `controllers/perses/service_controller.go` from the
perses-operator repository: the `reconcileService` convergence step and the
`createPersesService` desired-state builder, together with the cluster-client
environment they interact with.

External collaborators (the generic cluster client, the labeling helper
`common.LabelsForPerses`, the `subreconciler` signal constructors, the
owner-reference setter and the status-condition writer) are modelled as an
explicit environment `Env`; the cluster's stored Service is an explicit
`Cluster` state.  Server-side normalization (defaulting performed by the
API server on writes, including dry-run writes) is an abstract function
`Env.norm`.  Every write the reconciler performs is recorded in a `Writes`
trace so that claims about "exactly one create / no persisting update" are
directly statable.
-/

namespace PersesOperator

/-- Errors are opaque messages. -/
abbrev Err := String

/-- String-keyed maps (Go `map[string]string`) as association lists. -/
abbrev KVMap := List (String × String)

/-- Go `intstr.IntOrString` (used for a Service port's target port). -/
inductive IntOrString where
  | int (value : Int)
  | str (value : String)
deriving DecidableEq, Repr

/-- One entry of `corev1.ServiceSpec.Ports`. -/
structure ServicePort where
  name : String
  port : Int
  protocol : String
  targetPort : IntOrString
deriving DecidableEq, Repr

/-- A metav1 owner reference: after `ctrl.SetControllerReference(perses, ser, scheme)`
succeeds, the child carries a controller owner reference naming the parent. -/
structure OwnerReference where
  name : String
  controller : Bool
deriving DecidableEq, Repr

/-- The object metadata of the managed Service (`metav1.ObjectMeta`).
`nspace` stands for the Go field `Namespace` (a reserved word in Lean). -/
structure ObjectMeta where
  name : String
  nspace : String
  annotations : KVMap
  labels : KVMap
  ownerReferences : List OwnerReference
deriving DecidableEq, Repr

/-- `corev1.ServiceSpec`: the fields the builder sets, plus `clusterIP` as a
representative server-populated field (left empty by the builder, owned by the
API server's defaulting). -/
structure ServiceSpec where
  type : String
  clusterIP : String
  ports : List ServicePort
  selector : KVMap
deriving DecidableEq, Repr

/-- `corev1.Service`. -/
structure Service where
  metadata : ObjectMeta
  spec : ServiceSpec
deriving DecidableEq, Repr

/-- `metav1.Condition` as used by `meta.SetStatusCondition`. -/
structure Condition where
  type : String
  status : String
  reason : String
  message : String
deriving DecidableEq, Repr

/-- `v1alpha1.Metadata`: the optional metadata overrides of the parent's spec
(`perses.Spec.Metadata`), carrying optional annotations. -/
structure PersesMetadata where
  annotations : Option KVMap
deriving DecidableEq, Repr

/-- The slice of `v1alpha1.PersesSpec` this controller reads. -/
structure PersesSpec where
  metadata : Option PersesMetadata
deriving DecidableEq, Repr

/-- `v1alpha1.PersesStatus`: an ordered list of named conditions. -/
structure PersesStatus where
  conditions : List Condition
deriving DecidableEq, Repr

/-- The parent custom resource `v1alpha1.Perses`. -/
structure Perses where
  name : String
  nspace : String
  spec : PersesSpec
  status : PersesStatus
deriving DecidableEq, Repr

/-- Modelled from the spec: the `subreconciler` signal vocabulary, "signal ∈
{halt, requeue, requeue-with-error, continue}"; `ContinueReconciling()`
is `continueReconciling` and `RequeueWithError(err)` is `requeueWithError err`. -/
inductive Signal where
  | continueReconciling
  | requeue
  | requeueWithError (e : Err)
  | halt
deriving DecidableEq, Repr

/-- Modelled from the spec: the outcome of step 1, `getLatestPerses` guarded by
`subreconciler.ShouldHaltOrRequeue` — either the resolved parent, or a signal
to propagate immediately. -/
inductive ResolveResult where
  | ok (p : Perses)
  | halted (s : Signal)
deriving DecidableEq, Repr

/-- Outcome of `r.Get` on the Service, with the not-found error discriminated
(`apierrors.IsNotFound`). -/
inductive GetResult where
  | found (s : Service)
  | notFound
  | err (e : Err)
deriving DecidableEq, Repr

/-- Cluster state visible to this reconciler: the stored Service under the
parent's name/namespace, if any. -/
structure Cluster where
  service : Option Service
deriving DecidableEq, Repr

/-- The environment of external collaborators for one invocation:
resolution of the parent, injected failures of each cluster call, the result
of the labeling helper, and the server's normalization function `norm`
(the defaulting the API server applies on any write, dry-run included). -/
structure Env where
  resolveParent : ResolveResult
  getServiceErr : Option Err
  labelsForPerses : Except Err KVMap
  setOwnerRefErr : Option Err
  dryRunErr : Option Err
  createErr : Option Err
  updateErr : Option Err
  statusUpdateErr : Option Err
  norm : Service → Service

/-- Trace of the write calls one invocation issued, in the order fields are
listed: creates, persisting (non-dry-run) updates, dry-run updates, status
updates (each status update records the parent object submitted). -/
structure Writes where
  creates : List Service
  updates : List Service
  dryRuns : List Service
  statusUpdates : List Perses
deriving DecidableEq, Repr

/-- The empty write trace. -/
def Writes.none : Writes := ⟨[], [], [], []⟩

/-- Result of one `reconcileService` invocation: the returned signal, the
write trace, the cluster state afterwards, and the in-memory parent object
at return (none when step 1 halted before the parent was available). -/
structure ReconcileResult where
  signal : Signal
  writes : Writes
  cluster : Cluster
  parent : Option Perses
deriving DecidableEq, Repr

/-- Modelled from the spec: the condition-type constant
`common.TypeAvailablePerses`, which the spec gives as "Available". -/
def TypeAvailablePerses : String := "Available"

/-- The controller owner reference `ctrl.SetControllerReference` installs:
it names the parent and has the controller flag set. -/
def ownerRefOf (p : Perses) : OwnerReference :=
  { name := p.name, controller := true }

/-- Successful `ctrl.SetControllerReference(perses, ser, scheme)`: the child's
owner references become the single controller reference to the parent. -/
def setControllerReference (p : Perses) (s : Service) : Service :=
  { s with metadata := { s.metadata with ownerReferences := [ownerRefOf p] } }

/-- `meta.SetStatusCondition`: update the condition with the same type in
place when one exists, otherwise append the new condition. -/
def setStatusCondition (conds : List Condition) (c : Condition) : List Condition :=
  if conds.any fun c0 => c0.type == c.type then
    conds.map fun c0 => if c0.type == c.type then c else c0
  else
    conds ++ [c]

/-- The failure condition recorded on the create branch
(service_controller.go lines 60-62). -/
def unavailableCondition (p : Perses) (e : Err) : Condition :=
  { type := TypeAvailablePerses
    status := "False"
    reason := "Reconciling"
    message := "Failed to create Service for the custom resource (" ++ p.name
      ++ "): (" ++ e ++ ")" }

/-- The annotation computation of `createPersesService`
(service_controller.go lines 111-114): the empty map, overridden by the
parent's spec annotations when both `Spec.Metadata` and its `Annotations`
are set. -/
def annotationsFor (perses : Perses) : KVMap :=
  match perses.spec.metadata with
  | some m =>
    match m.annotations with
    | some a => a
    | none => []
  | none => []

/-- `createPersesService` (service_controller.go lines 103-141): derive labels
via the labeling helper, take the parent's annotations when set (empty map
otherwise), build the Service with the parent's identity, the fixed
ClusterIP type, the single http/8080/TCP port and the labels as selector,
then set the controller owner reference. -/
def createPersesService (env : Env) (perses : Perses) : Except Err Service :=
  match env.labelsForPerses with
  | .error e => .error e
  | .ok ls =>
    let annotations : KVMap := annotationsFor perses
    let ser : Service :=
      { metadata :=
          { name := perses.name
            nspace := perses.nspace
            annotations := annotations
            labels := ls
            ownerReferences := [] }
        spec :=
          { type := "ClusterIP"
            clusterIP := ""
            ports := [{ name := "http"
                        port := 8080
                        protocol := "TCP"
                        targetPort := .int 8080 }]
            selector := ls } }
    match env.setOwnerRefErr with
    | some e => .error e
    | none => .ok (setControllerReference perses ser)

/-- `r.Get` on the Service by the parent's name/namespace
(service_controller.go line 49): an injected transient error takes
precedence; otherwise the stored Service (or not-found) is returned. -/
def getService (env : Env) (cl : Cluster) : GetResult :=
  match env.getServiceErr with
  | some e => .err e
  | none =>
    match cl.service with
    | some s => .found s
    | none => .notFound

/-- The create branch (service_controller.go lines 56-78), entered when the
Service fetch returned not-found: build the desired Service; on build failure
record the failure condition and persist the status (a failing status update's
error replaces the returned error, following the `err` reassignment on
line 64); on build success create the Service (the server stores its
normalization of the submitted object). -/
def createBranch (env : Env) (cl : Cluster) (perses : Perses) : ReconcileResult :=
  match createPersesService env perses with
  | .error e2 =>
    let perses' : Perses :=
      { perses with status :=
          { conditions := setStatusCondition perses.status.conditions
              (unavailableCondition perses e2) } }
    match env.statusUpdateErr with
    | some e =>
      { signal := .requeueWithError e
        writes := ⟨[], [], [], [perses']⟩
        cluster := cl
        parent := some perses' }
    | none =>
      { signal := .requeueWithError e2
        writes := ⟨[], [], [], [perses']⟩
        cluster := cl
        parent := some perses' }
  | .ok ser =>
    match env.createErr with
    | some e =>
      { signal := .requeueWithError e
        writes := ⟨[ser], [], [], []⟩
        cluster := cl
        parent := some perses }
    | none =>
      { signal := .continueReconciling
        writes := ⟨[ser], [], [], []⟩
        cluster := { service := some (env.norm ser) }
        parent := some perses }

/-- The update branch (service_controller.go lines 81-100), entered when the
Service fetch found `fnd`: build the desired Service; submit it as a dry-run
update so the server fills the fields it owns (on success the in-memory object
becomes `env.norm svc`); deep-compare the observed Service against the
normalized desired one (`equality.Semantic.DeepEqual`, full structural
equality) and issue one persisting update only when they differ. -/
def updateBranch (env : Env) (cl : Cluster) (perses : Perses) (fnd : Service) :
    ReconcileResult :=
  match createPersesService env perses with
  | .error e =>
    { signal := .requeueWithError e
      writes := Writes.none
      cluster := cl
      parent := some perses }
  | .ok svc =>
    match env.dryRunErr with
    | some e =>
      { signal := .requeueWithError e
        writes := ⟨[], [], [svc], []⟩
        cluster := cl
        parent := some perses }
    | none =>
      let svc' := env.norm svc
      if fnd = svc' then
        { signal := .continueReconciling
          writes := ⟨[], [], [svc], []⟩
          cluster := cl
          parent := some perses }
      else
        match env.updateErr with
        | some e =>
          { signal := .requeueWithError e
            writes := ⟨[], [svc'], [svc], []⟩
            cluster := cl
            parent := some perses }
        | none =>
          { signal := .continueReconciling
            writes := ⟨[], [svc'], [svc], []⟩
            cluster := { service := some (env.norm svc') }
            parent := some perses }

/-- `reconcileService` (service_controller.go lines 41-101): resolve the
parent (propagating a halt-or-requeue outcome of step 1 unchanged), fetch the
Service, and branch: a non-not-found fetch error signals requeue-with-error
with no further action; not-found enters the create branch; found enters the
update branch. -/
def reconcileService (env : Env) (cl : Cluster) : ReconcileResult :=
  match env.resolveParent with
  | .halted s =>
    { signal := s, writes := Writes.none, cluster := cl, parent := none }
  | .ok perses =>
    match getService env cl with
    | .err e =>
      { signal := .requeueWithError e
        writes := Writes.none
        cluster := cl
        parent := some perses }
    | .notFound => createBranch env cl perses
    | .found fnd => updateBranch env cl perses fnd

/-! ### Sample inputs used by the witnesses -/

/-- A concrete parent resource. -/
def samplePerses : Perses :=
  { name := "perses-sample"
    nspace := "monitoring"
    spec := { metadata := none }
    status := { conditions := [] } }

/-- A concrete derived label set. -/
def sampleLabels : KVMap :=
  [("app.kubernetes.io/name", "perses"), ("app.kubernetes.io/instance", "perses-sample")]

/-- A fully healthy environment: the parent resolves, every cluster call
succeeds and the server's normalization is the identity. -/
def sampleEnv : Env :=
  { resolveParent := .ok samplePerses
    getServiceErr := none
    labelsForPerses := .ok sampleLabels
    setOwnerRefErr := none
    dryRunErr := none
    createErr := none
    updateErr := none
    statusUpdateErr := none
    norm := id }

/-- The Service `createPersesService` builds in `sampleEnv` for `samplePerses`. -/
def sampleService : Service :=
  { metadata :=
      { name := "perses-sample"
        nspace := "monitoring"
        annotations := []
        labels := sampleLabels
        ownerReferences := [ownerRefOf samplePerses] }
    spec :=
      { type := "ClusterIP"
        clusterIP := ""
        ports := [{ name := "http", port := 8080, protocol := "TCP",
                    targetPort := .int 8080 }]
        selector := sampleLabels } }

/-! ### Helper lemmas -/

/-- Inversion for a successful build: the resulting Service carries the
parent's identity, the derived labels as labels and selector, the fixed port
list, the ClusterIP type and the controller owner reference. -/
theorem createPersesService_ok_shape (env : Env) (p : Perses) (s : Service)
    (h : createPersesService env p = .ok s) :
    ∃ ls, env.labelsForPerses = .ok ls ∧
      s = { metadata :=
              { name := p.name
                nspace := p.nspace
                annotations := annotationsFor p
                labels := ls
                ownerReferences := [ownerRefOf p] }
            spec :=
              { type := "ClusterIP"
                clusterIP := ""
                ports := [{ name := "http", port := 8080, protocol := "TCP",
                            targetPort := .int 8080 }]
                selector := ls } } := by
  unfold createPersesService at h
  cases hls : env.labelsForPerses with
  | error e => rw [hls] at h; exact absurd h (by simp)
  | ok ls =>
    rw [hls] at h
    cases ho : env.setOwnerRefErr with
    | some e => rw [ho] at h; simp at h
    | none =>
      rw [ho] at h
      simp only [Except.ok.injEq] at h
      exact ⟨ls, rfl, h.symm⟩

/-- The condition written by `setStatusCondition` is always present in the
resulting condition list. -/
theorem setStatusCondition_mem (conds : List Condition) (c : Condition) :
    c ∈ setStatusCondition conds c := by
  unfold setStatusCondition
  split
  · next h =>
    rw [List.any_eq_true] at h
    obtain ⟨c0, hc0, htyp⟩ := h
    rw [List.mem_map]
    exact ⟨c0, hc0, by simp [htyp]⟩
  · simp

/-! ### Claim theorems -/

/-- C5: if the fetch of the existing Service fails with any error other than
not-found, `reconcileService` performs no further action — no build result is
used, no create, update or status write is issued, the cluster is untouched —
and the returned signal is requeue-with-error carrying that fetch error. -/
theorem reconcileService_transient_fetch_error (env : Env) (cl : Cluster)
    (p : Perses) (e : Err)
    (hres : env.resolveParent = .ok p)
    (hget : env.getServiceErr = some e) :
    reconcileService env cl =
      { signal := .requeueWithError e
        writes := Writes.none
        cluster := cl
        parent := some p } := by
  simp [reconcileService, getService, hres, hget]

/-- Witness for C5 at a concrete environment with an injected fetch error. -/
theorem reconcileService_transient_fetch_error_witness :
    reconcileService { sampleEnv with getServiceErr := some "connection refused" }
        ⟨none⟩ =
      { signal := .requeueWithError "connection refused"
        writes := Writes.none
        cluster := ⟨none⟩
        parent := some samplePerses } :=
  reconcileService_transient_fetch_error _ _ samplePerses "connection refused" rfl rfl

/-- C6: in the update branch (the observed Service exists), if the build
fails, `reconcileService` returns requeue-with-error carrying the build error,
issues no write at all (in particular no status update), and the in-memory
parent — its status conditions included — is returned unchanged. -/
theorem reconcileService_update_branch_build_failure (env : Env) (cl : Cluster)
    (p : Perses) (fnd : Service) (e : Err)
    (hres : env.resolveParent = .ok p)
    (hget : env.getServiceErr = none)
    (hfnd : cl.service = some fnd)
    (hbuild : createPersesService env p = .error e) :
    reconcileService env cl =
      { signal := .requeueWithError e
        writes := Writes.none
        cluster := cl
        parent := some p } := by
  simp [reconcileService, getService, updateBranch, hres, hget, hfnd, hbuild]

/-- Witness for C6: a concrete cluster holding a Service and an environment
whose labeling helper fails. -/
theorem reconcileService_update_branch_build_failure_witness :
    reconcileService
        { sampleEnv with labelsForPerses := .error "label derivation failed" }
        ⟨some sampleService⟩ =
      { signal := .requeueWithError "label derivation failed"
        writes := Writes.none
        cluster := ⟨some sampleService⟩
        parent := some samplePerses } :=
  reconcileService_update_branch_build_failure _ _ samplePerses sampleService
    "label derivation failed" rfl rfl rfl rfl

/-- C8: every Service built by `createPersesService` carries the parent's
configured annotations verbatim when they are set, and the empty annotation
map when the parent's spec metadata or its annotations are unset. -/
theorem createPersesService_annotations (env : Env) (p : Perses) (s : Service)
    (h : createPersesService env p = .ok s) :
    (∀ m a, p.spec.metadata = some m → m.annotations = some a →
      s.metadata.annotations = a) ∧
    ((p.spec.metadata = none ∨
        ∃ m, p.spec.metadata = some m ∧ m.annotations = none) →
      s.metadata.annotations = []) := by
  obtain ⟨ls, -, hs⟩ := createPersesService_ok_shape env p s h
  subst hs
  constructor
  · intro m a hm ha
    simp [annotationsFor, hm, ha]
  · rintro (hm | ⟨m, hm, ha⟩)
    · simp [annotationsFor, hm]
    · simp [annotationsFor, hm, ha]

/-- Witness for C8 at a parent with configured annotations. -/
theorem createPersesService_annotations_witness :
    createPersesService sampleEnv
        { samplePerses with spec :=
            { metadata := some { annotations := some [("team", "o11y")] } } } =
      .ok { sampleService with metadata :=
              { sampleService.metadata with annotations := [("team", "o11y")] } } ∧
    (createPersesService_annotations sampleEnv
        { samplePerses with spec :=
            { metadata := some { annotations := some [("team", "o11y")] } } }
        { sampleService with metadata :=
            { sampleService.metadata with annotations := [("team", "o11y")] } }
        rfl).1
      { annotations := some [("team", "o11y")] } [("team", "o11y")] rfl rfl =
      (rfl : ([("team", "o11y")] : KVMap) = [("team", "o11y")]) := by
  constructor
  · rfl
  · rfl

/-- C9: every Service built by `createPersesService` has spec type ClusterIP,
fixed by the builder and not derived from the parent's spec. -/
theorem createPersesService_type_clusterIP (env : Env) (p : Perses) (s : Service)
    (h : createPersesService env p = .ok s) :
    s.spec.type = "ClusterIP" := by
  obtain ⟨ls, -, hs⟩ := createPersesService_ok_shape env p s h
  subst hs
  rfl

/-- Witness for C9 at the sample environment and parent. -/
theorem createPersesService_type_clusterIP_witness :
    sampleService.spec.type = "ClusterIP" :=
  createPersesService_type_clusterIP sampleEnv samplePerses sampleService rfl

/-- C1: in the update branch with a successful dry run, if the observed
Service equals the server-normalized desired Service (full structural
equality) then no persisting update is issued and the signal is continue;
if they differ, exactly one persisting update is issued — continue when it
succeeds, requeue-with-error carrying the update error when it fails. -/
theorem reconcileService_drift_check (env : Env) (cl : Cluster) (p : Perses)
    (fnd svc : Service)
    (hres : env.resolveParent = .ok p)
    (hget : env.getServiceErr = none)
    (hfnd : cl.service = some fnd)
    (hbuild : createPersesService env p = .ok svc)
    (hdry : env.dryRunErr = none) :
    (fnd = env.norm svc →
      (reconcileService env cl).writes.updates = [] ∧
      (reconcileService env cl).signal = .continueReconciling) ∧
    (fnd ≠ env.norm svc →
      (reconcileService env cl).writes.updates = [env.norm svc] ∧
      (env.updateErr = none →
        (reconcileService env cl).signal = .continueReconciling) ∧
      (∀ e, env.updateErr = some e →
        (reconcileService env cl).signal = .requeueWithError e)) := by
  simp only [reconcileService, getService, updateBranch, hres, hget, hfnd,
    hbuild, hdry]
  constructor
  · intro heq
    simp [heq]
  · intro hne
    rw [if_neg hne]
    cases hu : env.updateErr with
    | some e => simp
    | none => simp

/-- Witness for C1: a concrete observed Service differing from the desired
one (stale labels), identity normalization, successful update. -/
theorem reconcileService_drift_check_witness :
    let stale : Service :=
      { sampleService with metadata :=
          { sampleService.metadata with labels := [("app", "old")] } }
    (stale = sampleEnv.norm sampleService →
      (reconcileService sampleEnv ⟨some stale⟩).writes.updates = [] ∧
      (reconcileService sampleEnv ⟨some stale⟩).signal = .continueReconciling) ∧
    (stale ≠ sampleEnv.norm sampleService →
      (reconcileService sampleEnv ⟨some stale⟩).writes.updates =
        [sampleEnv.norm sampleService] ∧
      (sampleEnv.updateErr = none →
        (reconcileService sampleEnv ⟨some stale⟩).signal =
          .continueReconciling) ∧
      (∀ e, sampleEnv.updateErr = some e →
        (reconcileService sampleEnv ⟨some stale⟩).signal =
          .requeueWithError e)) :=
  reconcileService_drift_check sampleEnv
    ⟨some { sampleService with metadata :=
        { sampleService.metadata with labels := [("app", "old")] } }⟩
    samplePerses
    { sampleService with metadata :=
        { sampleService.metadata with labels := [("app", "old")] } }
    sampleService rfl rfl rfl rfl rfl

/-- C2: when no Service exists (the fetch returns not-found) and the build
and create succeed, `reconcileService` creates exactly one Service with the
parent's name and namespace, the derived labels as labels and selector, the
single http/8080/TCP/8080 port, and a controller owner reference to the
parent; no update or status write happens and the signal is continue. -/
theorem reconcileService_create (env : Env) (cl : Cluster) (p : Perses)
    (ls : KVMap)
    (hres : env.resolveParent = .ok p)
    (hget : env.getServiceErr = none)
    (hnone : cl.service = none)
    (hls : env.labelsForPerses = .ok ls)
    (howner : env.setOwnerRefErr = none)
    (hcreate : env.createErr = none) :
    ∃ ser,
      (reconcileService env cl).writes.creates = [ser] ∧
      (reconcileService env cl).writes.updates = [] ∧
      (reconcileService env cl).writes.statusUpdates = [] ∧
      ser.metadata.name = p.name ∧
      ser.metadata.nspace = p.nspace ∧
      ser.metadata.labels = ls ∧
      ser.spec.selector = ls ∧
      ser.spec.ports = [{ name := "http", port := 8080, protocol := "TCP",
                          targetPort := .int 8080 }] ∧
      ser.metadata.ownerReferences = [ownerRefOf p] ∧
      (reconcileService env cl).signal = .continueReconciling := by
  have hbuild : createPersesService env p =
      .ok { metadata :=
              { name := p.name
                nspace := p.nspace
                annotations := annotationsFor p
                labels := ls
                ownerReferences := [ownerRefOf p] }
            spec :=
              { type := "ClusterIP"
                clusterIP := ""
                ports := [{ name := "http", port := 8080, protocol := "TCP",
                            targetPort := .int 8080 }]
                selector := ls } } := by
    unfold createPersesService
    rw [hls, howner]
    rfl
  refine ⟨{ metadata :=
              { name := p.name
                nspace := p.nspace
                annotations := annotationsFor p
                labels := ls
                ownerReferences := [ownerRefOf p] }
            spec :=
              { type := "ClusterIP"
                clusterIP := ""
                ports := [{ name := "http", port := 8080, protocol := "TCP",
                            targetPort := .int 8080 }]
                selector := ls } },
          ?_, ?_, ?_, rfl, rfl, rfl, rfl, rfl, rfl, ?_⟩ <;>
    simp [reconcileService, getService, createBranch, hres, hget, hnone,
      hbuild, hcreate]

/-- Witness for C2 at the sample environment with an empty cluster. -/
theorem reconcileService_create_witness :
    ∃ ser,
      (reconcileService sampleEnv ⟨none⟩).writes.creates = [ser] ∧
      (reconcileService sampleEnv ⟨none⟩).writes.updates = [] ∧
      (reconcileService sampleEnv ⟨none⟩).writes.statusUpdates = [] ∧
      ser.metadata.name = samplePerses.name ∧
      ser.metadata.nspace = samplePerses.nspace ∧
      ser.metadata.labels = sampleLabels ∧
      ser.spec.selector = sampleLabels ∧
      ser.spec.ports = [{ name := "http", port := 8080, protocol := "TCP",
                          targetPort := .int 8080 }] ∧
      ser.metadata.ownerReferences = [ownerRefOf samplePerses] ∧
      (reconcileService sampleEnv ⟨none⟩).signal = .continueReconciling :=
  reconcileService_create sampleEnv ⟨none⟩ samplePerses sampleLabels
    rfl rfl rfl rfl rfl rfl

/-- C4: in the create branch, when the build fails and the status update
succeeds, `reconcileService` records the condition {type Available, status
False, reason Reconciling, message naming the parent and the build error}
on the parent, persists exactly that parent through one status update, and
returns requeue-with-error carrying the original build error. -/
theorem reconcileService_build_failure_status (env : Env) (cl : Cluster)
    (p : Perses) (e2 : Err)
    (hres : env.resolveParent = .ok p)
    (hget : env.getServiceErr = none)
    (hnone : cl.service = none)
    (hbuild : createPersesService env p = .error e2)
    (hstatus : env.statusUpdateErr = none) :
    ∃ p',
      (reconcileService env cl).writes.statusUpdates = [p'] ∧
      (reconcileService env cl).writes.creates = [] ∧
      (reconcileService env cl).writes.updates = [] ∧
      p'.name = p.name ∧
      unavailableCondition p e2 ∈ p'.status.conditions ∧
      (unavailableCondition p e2).type = "Available" ∧
      (unavailableCondition p e2).status = "False" ∧
      (unavailableCondition p e2).reason = "Reconciling" ∧
      (unavailableCondition p e2).message =
        "Failed to create Service for the custom resource (" ++ p.name
          ++ "): (" ++ e2 ++ ")" ∧
      (reconcileService env cl).signal = .requeueWithError e2 := by
  refine ⟨{ p with status :=
              { conditions := setStatusCondition p.status.conditions
                  (unavailableCondition p e2) } },
          ?_, ?_, ?_, rfl, setStatusCondition_mem _ _, rfl, rfl, rfl, ?_, ?_⟩ <;>
    simp [reconcileService, getService, createBranch, hres, hget, hnone,
      hbuild, hstatus, unavailableCondition, TypeAvailablePerses]

/-- Witness for C4: labeling fails, the status update succeeds. -/
theorem reconcileService_build_failure_status_witness :
    ∃ p',
      (reconcileService
          { sampleEnv with labelsForPerses := .error "bad labels" }
          ⟨none⟩).writes.statusUpdates = [p'] ∧
      (reconcileService
          { sampleEnv with labelsForPerses := .error "bad labels" }
          ⟨none⟩).writes.creates = [] ∧
      (reconcileService
          { sampleEnv with labelsForPerses := .error "bad labels" }
          ⟨none⟩).writes.updates = [] ∧
      p'.name = samplePerses.name ∧
      unavailableCondition samplePerses "bad labels" ∈ p'.status.conditions ∧
      (unavailableCondition samplePerses "bad labels").type = "Available" ∧
      (unavailableCondition samplePerses "bad labels").status = "False" ∧
      (unavailableCondition samplePerses "bad labels").reason = "Reconciling" ∧
      (unavailableCondition samplePerses "bad labels").message =
        "Failed to create Service for the custom resource ("
          ++ samplePerses.name ++ "): (" ++ "bad labels" ++ ")" ∧
      (reconcileService
          { sampleEnv with labelsForPerses := .error "bad labels" }
          ⟨none⟩).signal = .requeueWithError "bad labels" :=
  reconcileService_build_failure_status
    { sampleEnv with labelsForPerses := .error "bad labels" }
    ⟨none⟩ samplePerses "bad labels" rfl rfl rfl rfl rfl

/-- C10: in the create branch, when the build fails and the status update
also fails, the returned signal is requeue-with-error carrying the
status-update error — not the original build error, which survives only in
the condition recorded on the submitted parent. -/
theorem reconcileService_status_update_failure (env : Env) (cl : Cluster)
    (p : Perses) (e2 e : Err)
    (hres : env.resolveParent = .ok p)
    (hget : env.getServiceErr = none)
    (hnone : cl.service = none)
    (hbuild : createPersesService env p = .error e2)
    (hstatus : env.statusUpdateErr = some e) :
    (reconcileService env cl).signal = .requeueWithError e ∧
    (e ≠ e2 → (reconcileService env cl).signal ≠ .requeueWithError e2) ∧
    (reconcileService env cl).writes.statusUpdates =
      [{ p with status :=
           { conditions := setStatusCondition p.status.conditions
               (unavailableCondition p e2) } }] ∧
    unavailableCondition p e2 ∈
      (setStatusCondition p.status.conditions (unavailableCondition p e2)) := by
  refine ⟨?_, ?_, ?_, setStatusCondition_mem _ _⟩ <;>
    simp [reconcileService, getService, createBranch, hres, hget, hnone,
      hbuild, hstatus]

/-- Witness for C10: labeling fails with one error, the status update fails
with a different one; the second is the returned error. -/
theorem reconcileService_status_update_failure_witness :
    (reconcileService
        { sampleEnv with
            labelsForPerses := .error "bad labels"
            statusUpdateErr := some "status conflict" }
        ⟨none⟩).signal = .requeueWithError "status conflict" ∧
    ("status conflict" ≠ "bad labels" →
      (reconcileService
          { sampleEnv with
              labelsForPerses := .error "bad labels"
              statusUpdateErr := some "status conflict" }
          ⟨none⟩).signal ≠ .requeueWithError "bad labels") ∧
    (reconcileService
        { sampleEnv with
            labelsForPerses := .error "bad labels"
            statusUpdateErr := some "status conflict" }
        ⟨none⟩).writes.statusUpdates =
      [{ samplePerses with status :=
           { conditions := setStatusCondition samplePerses.status.conditions
               (unavailableCondition samplePerses "bad labels") } }] ∧
    unavailableCondition samplePerses "bad labels" ∈
      (setStatusCondition samplePerses.status.conditions
        (unavailableCondition samplePerses "bad labels")) :=
  reconcileService_status_update_failure
    { sampleEnv with
        labelsForPerses := .error "bad labels"
        statusUpdateErr := some "status conflict" }
    ⟨none⟩ samplePerses "bad labels" "status conflict" rfl rfl rfl rfl rfl

/-- C7: whenever the server's normalization preserves the identity fields
(name, namespace, owner references) of any object it normalizes — the API
contract for dry-run responses — every Service `reconcileService` submits in
a create or a persisting update carries the parent's name, the parent's
namespace and the controller owner reference to the parent. -/
theorem reconcileService_identity_invariant (env : Env) (cl : Cluster)
    (p : Perses)
    (hres : env.resolveParent = .ok p)
    (hnorm : ∀ s, (env.norm s).metadata.name = s.metadata.name ∧
      (env.norm s).metadata.nspace = s.metadata.nspace ∧
      (env.norm s).metadata.ownerReferences = s.metadata.ownerReferences) :
    ∀ svc ∈ (reconcileService env cl).writes.creates
        ++ (reconcileService env cl).writes.updates,
      svc.metadata.name = p.name ∧ svc.metadata.nspace = p.nspace ∧
      svc.metadata.ownerReferences = [ownerRefOf p] := by
  intro svc hsvc
  have hfields : ∀ s, createPersesService env p = .ok s →
      s.metadata.name = p.name ∧ s.metadata.nspace = p.nspace ∧
      s.metadata.ownerReferences = [ownerRefOf p] := by
    intro s hs
    obtain ⟨ls, -, rfl⟩ := createPersesService_ok_shape env p s hs
    exact ⟨rfl, rfl, rfl⟩
  cases hget : env.getServiceErr with
  | some e =>
    simp [reconcileService, getService, hres, hget, Writes.none] at hsvc
  | none =>
    cases hcs : cl.service with
    | none =>
      cases hb : createPersesService env p with
      | error e2 =>
        cases hs : env.statusUpdateErr <;>
          simp [reconcileService, getService, createBranch, hres, hget, hcs,
            hb, hs] at hsvc
      | ok ser =>
        have hser := hfields ser hb
        cases hc : env.createErr <;>
          simp [reconcileService, getService, createBranch, hres, hget, hcs,
            hb, hc] at hsvc <;> rw [hsvc] <;> exact hser
    | some fnd =>
      cases hb : createPersesService env p with
      | error e =>
        simp [reconcileService, getService, updateBranch, hres, hget, hcs,
          hb, Writes.none] at hsvc
      | ok svc0 =>
        have hsvc0 := hfields svc0 hb
        have hnsvc0 := hnorm svc0
        cases hd : env.dryRunErr with
        | some e =>
          simp [reconcileService, getService, updateBranch, hres, hget, hcs,
            hb, hd] at hsvc
        | none =>
          by_cases heq : fnd = env.norm svc0
          · simp [reconcileService, getService, updateBranch, hres, hget,
              hcs, hb, hd, heq] at hsvc
          · cases hu : env.updateErr <;>
              simp [reconcileService, getService, updateBranch, hres, hget,
                hcs, hb, hd, heq, hu] at hsvc <;> rw [hsvc] <;>
              exact ⟨hnsvc0.1.trans hsvc0.1, hnsvc0.2.1.trans hsvc0.2.1,
                hnsvc0.2.2.trans hsvc0.2.2⟩

/-- Witness for C7: in the sample environment (identity normalization) with
an empty cluster, the single created Service carries the parent's identity
and owner reference. -/
theorem reconcileService_identity_invariant_witness :
    sampleService ∈ (reconcileService sampleEnv ⟨none⟩).writes.creates
        ++ (reconcileService sampleEnv ⟨none⟩).writes.updates ∧
    sampleService.metadata.name = samplePerses.name ∧
    sampleService.metadata.nspace = samplePerses.nspace ∧
    sampleService.metadata.ownerReferences = [ownerRefOf samplePerses] :=
  ⟨by decide,
   reconcileService_identity_invariant sampleEnv ⟨none⟩ samplePerses rfl
     (fun s => ⟨rfl, rfl, rfl⟩) sampleService (by decide)⟩

/-- C3: idempotence — after a pass that completed successfully (signal
continue), against an idempotent server normalization and with the same
environment (no external change), a second invocation on the resulting
cluster performs no persisting write (no create, no persisting update, no
status update): the drift comparison finds the observed and desired Services
equal, the pass returns continue and leaves the cluster unchanged. -/
theorem reconcileService_idempotent (env : Env) (cl : Cluster) (p : Perses)
    (hres : env.resolveParent = .ok p)
    (hdry : env.dryRunErr = none)
    (hnorm : ∀ s, env.norm (env.norm s) = env.norm s)
    (hfirst : (reconcileService env cl).signal = .continueReconciling) :
    (reconcileService env (reconcileService env cl).cluster).writes.creates
        = [] ∧
    (reconcileService env (reconcileService env cl).cluster).writes.updates
        = [] ∧
    (reconcileService env
        (reconcileService env cl).cluster).writes.statusUpdates = [] ∧
    (reconcileService env (reconcileService env cl).cluster).signal
        = .continueReconciling ∧
    (reconcileService env (reconcileService env cl).cluster).cluster
        = (reconcileService env cl).cluster := by
  cases hget : env.getServiceErr with
  | some e => simp [reconcileService, getService, hres, hget] at hfirst
  | none =>
    cases hcs : cl.service with
    | none =>
      cases hb : createPersesService env p with
      | error e2 =>
        cases hs : env.statusUpdateErr <;>
          simp [reconcileService, getService, createBranch, hres, hget, hcs,
            hb, hs] at hfirst
      | ok ser =>
        cases hc : env.createErr with
        | some e =>
          simp [reconcileService, getService, createBranch, hres, hget, hcs,
            hb, hc] at hfirst
        | none =>
          have hclr : (reconcileService env cl).cluster
              = ⟨some (env.norm ser)⟩ := by
            simp [reconcileService, getService, createBranch, hres, hget,
              hcs, hb, hc]
          rw [hclr]
          simp [reconcileService, getService, updateBranch, hres, hget, hb,
            hdry]
    | some fnd =>
      cases hb : createPersesService env p with
      | error e =>
        simp [reconcileService, getService, updateBranch, hres, hget, hcs,
          hb] at hfirst
      | ok svc =>
        by_cases heq : fnd = env.norm svc
        · have hclr : (reconcileService env cl).cluster = cl := by
            simp [reconcileService, getService, updateBranch, hres, hget,
              hcs, hb, hdry, heq]
          rw [hclr]
          simp [reconcileService, getService, updateBranch, hres, hget, hcs,
            hb, hdry, heq]
        · cases hu : env.updateErr with
          | some e =>
            simp [reconcileService, getService, updateBranch, hres, hget,
              hcs, hb, hdry, heq, hu] at hfirst
          | none =>
            have hclr : (reconcileService env cl).cluster
                = ⟨some (env.norm (env.norm svc))⟩ := by
              simp [reconcileService, getService, updateBranch, hres, hget,
                hcs, hb, hdry, heq, hu]
            rw [hclr, hnorm svc]
            simp [reconcileService, getService, updateBranch, hres, hget,
              hb, hdry]

/-- Witness for C3: the sample environment (identity normalization) on an
empty cluster — the first pass creates the Service and the second pass is a
no-op. -/
theorem reconcileService_idempotent_witness :
    (reconcileService sampleEnv
        (reconcileService sampleEnv ⟨none⟩).cluster).writes.creates = [] ∧
    (reconcileService sampleEnv
        (reconcileService sampleEnv ⟨none⟩).cluster).writes.updates = [] ∧
    (reconcileService sampleEnv
        (reconcileService sampleEnv ⟨none⟩).cluster).writes.statusUpdates
        = [] ∧
    (reconcileService sampleEnv
        (reconcileService sampleEnv ⟨none⟩).cluster).signal
        = .continueReconciling ∧
    (reconcileService sampleEnv
        (reconcileService sampleEnv ⟨none⟩).cluster).cluster
        = (reconcileService sampleEnv ⟨none⟩).cluster :=
  reconcileService_idempotent sampleEnv ⟨none⟩ samplePerses rfl rfl
    (fun _ => rfl) (by decide)

end PersesOperator
